import Mathlib

/-!
Shallow embedding of the StudyBot Telegram bot (src/Ankit.py).

The Python module is a single file; the parts modelled here are the SQLite
data model (tables users, content, quizzes, purchases), the helper
functions (ensure_user, user_is_premium_sync, fetch_items_sync), the
handlers (send_items, send_documents_by_range, redeem_cmd,
make_premium_cmd, parse_caption, admin_doc_handler, addquiz_cmd, buy_cmd,
buy_cb_router) and the process-wide configuration (CLASSES, CATEGORIES,
PAGE_SIZE, PLANS, ADMIN_IDS, payment strings).

Modelling conventions:
- SQLite tables become Lean lists of records; AUTOINCREMENT surrogate ids
  are modelled for the content table (they matter for listing order) and
  elided for the other tables, where no modelled code reads them back.
- `created_at` and `joined_at` are ISO-8601 text produced from the UTC
  clock; for a fixed format their lexicographic text order is the clock
  order, so timestamps are modelled as Nat clock values, passed in
  explicitly as a `now` argument.
- Telegram ids are Python ints, modelled as Int.
- Outbound chat traffic (reply_text, bot.send_message, reply_document,
  send_action) is modelled as a list of Msg events returned by a handler;
  a Msg value means the call was attempted. A transport failure happens
  inside the external client after the attempt and is not modelled except
  where a handler catches it and branches (admin fan-out in redeem_cmd,
  which takes an explicit failure predicate).
- Python string helpers used by the source (split with a separator,
  split() on whitespace, split with maxsplit=1, strip, int()) are
  re-implemented structurally over List Char so that every definition
  evaluates inside the kernel.
- The configuration read from the environment (ADMIN_IDS, gateway keys)
  is passed to each handler as an explicit argument, one value per
  process run; PAYMENT_UPI_ID and PAYMENT_NOTE are modelled at their
  source defaults.
-/

/-- Splits a character list at every character satisfying `p`, keeping
empty segments, mirroring Python `str.split(sep)` semantics (on a single
separator character) where `"".split(sep) == [""]`. -/
def splitPred (p : Char → Bool) : List Char → List (List Char)
  | [] => [[]]
  | c :: cs =>
    match splitPred p cs with
    | [] => if p c then [[], []] else [[c]]
    | h :: t => if p c then [] :: h :: t else (c :: h) :: t

/-- Python `str.strip()` on a character list: drop leading and trailing
whitespace. -/
def stripChars (l : List Char) : List Char :=
  ((l.dropWhile Char.isWhitespace).reverse.dropWhile Char.isWhitespace).reverse

/-- Python `s.strip()`. -/
def pyStrip (s : String) : String := String.mk (stripChars s.toList)

/-- Python `[p.strip() for p in s.split(sep)]` for a one-character
separator, as used by parse_caption and addquiz_cmd. -/
def pySplitStrip (sep : Char) (s : String) : List String :=
  (splitPred (fun c => c == sep) s.toList).map (fun l => String.mk (stripChars l))

/-- Python `s.split()` with no arguments: split on whitespace runs,
dropping empty tokens. -/
def pySplitWs (s : String) : List String :=
  ((splitPred (fun c => c.isWhitespace) s.toList).filter (fun l => !l.isEmpty)).map String.mk

/-- Python `s.split(maxsplit=1)` (whitespace separator, at most one
split): first whitespace-delimited token, then the remainder with the
separating whitespace run removed. -/
def pySplitWsOnce (s : String) : List String :=
  let l := s.toList.dropWhile Char.isWhitespace
  match l with
  | [] => []
  | _ =>
    let tok := l.takeWhile (fun c => !c.isWhitespace)
    let rest := (l.dropWhile (fun c => !c.isWhitespace)).dropWhile Char.isWhitespace
    if rest.isEmpty then [String.mk tok] else [String.mk tok, String.mk rest]

/-- Python `s.split(" ", 1)`: split at the first literal space only. -/
def pySplitSpaceOnce (s : String) : List String :=
  let pre := s.toList.takeWhile (fun c => c != ' ')
  match s.toList.dropWhile (fun c => c != ' ') with
  | [] => [String.mk pre]
  | _ :: rest => [String.mk pre, String.mk rest]

/-- Decimal digit-string value, `none` on the empty list or any
non-digit character. -/
def digitsValAux : List Char → Nat → Option Nat
  | [], acc => some acc
  | c :: cs, acc =>
    if c.isDigit then digitsValAux cs (acc * 10 + (c.toNat - 48)) else none

/-- Value of a non-empty all-digit character list. -/
def digitsVal (l : List Char) : Option Nat :=
  if l.isEmpty then none else digitsValAux l 0

/-- Python `int(s)` for decimal literals: surrounding whitespace is
ignored, one optional sign, then digits; `none` models the ValueError
raise. (Underscore digit grouping accepted by CPython is not modelled;
no modelled input uses it.) -/
def pyInt? (s : String) : Option Int :=
  match stripChars s.toList with
  | '-' :: ds => (digitsVal ds).map (fun n => -(n : Int))
  | '+' :: ds => (digitsVal ds).map (fun n => (n : Int))
  | ds => (digitsVal ds).map (fun n => (n : Int))

/-- Python `str.strip(chr)` for the double-quote character, as used on
the quiz question text. -/
def stripQuotes (s : String) : String :=
  String.mk (((s.toList.dropWhile (fun c => c == '"')).reverse.dropWhile (fun c => c == '"')).reverse)

/-- CLASSES from the source configuration. -/
def CLASSES : List String := ["9", "10", "11", "12"]

/-- CATEGORIES from the source configuration. -/
def CATEGORIES : List String := ["Short Notes", "PYQ", "Sample Papers", "Handwritten Notes", "Test Series", "Quizzes"]

/-- PAGE_SIZE from the source configuration. -/
def PAGE_SIZE : Nat := 8

/-- Truthy premium-flag strings shared by parse_caption and addquiz_cmd. -/
def TRUTHY : List String := ["1", "true", "True", "yes", "Y"]

/-- One Razorpay plan: months, amount in paise, display label. -/
structure Plan where
  months : Nat
  amount : Nat
  label : String
deriving Repr, DecidableEq

/-- PLANS table from the source configuration, as an association list
keyed by plan key. -/
def PLANS : List (String × Plan) :=
  [("1m", ⟨1, 9900, "1 Month ₹99"⟩),
   ("3m", ⟨3, 24900, "3 Months ₹249"⟩),
   ("12m", ⟨12, 69900, "12 Months ₹699"⟩)]

/-- PAYMENT_UPI_ID environment default. -/
def PAYMENT_UPI_ID : String := "default@upi"

/-- PAYMENT_NOTE environment default. -/
def PAYMENT_NOTE : String := "StudyBot Premium"

/-- Row of the users table. -/
structure UserRow where
  tg_id : Int
  name : String
  is_premium : Nat
  joined_at : Nat
deriving Repr, DecidableEq

/-- Row of the content table; `id` is the AUTOINCREMENT surrogate key. -/
structure ContentRow where
  id : Nat
  class_num : String
  category : String
  subject : String
  chapter : String
  title : String
  file_id : String
  premium : Nat
  created_at : Nat
deriving Repr, DecidableEq

/-- Row of the quizzes table (surrogate id elided; nothing modelled
reads it back). -/
structure QuizRow where
  class_num : String
  subject : String
  chapter : String
  question : String
  option1 : String
  option2 : String
  option3 : String
  option4 : String
  correct_index : Int
  premium : Nat
  created_at : Nat
deriving Repr, DecidableEq

/-- Row of the purchases table (surrogate id elided). -/
structure PurchaseRow where
  tg_id : Int
  txn_id : String
  plan : String
  created_at : Nat
deriving Repr, DecidableEq

/-- The SQLite database state. -/
structure DB where
  users : List UserRow
  content : List ContentRow
  quizzes : List QuizRow
  purchases : List PurchaseRow
deriving Repr, DecidableEq

/-- Next AUTOINCREMENT id for the content table. -/
def nextContentId (db : DB) : Nat :=
  (db.content.foldr (fun r m => max r.id m) 0) + 1

/-- One attempted outbound chat call. -/
inductive Msg where
  | reply (text : String)
  | replyMarkdown (text : String)
  | sendTo (chat : Int) (text : String)
  | chatActionUpload
  | document (file_id : String) (caption : String)
deriving Repr, DecidableEq

/-- is_admin from the source: membership in the configured ADMIN_IDS. -/
def is_admin (adminIds : List Int) (user_id : Int) : Bool :=
  adminIds.contains user_id

/-- ensure_user: `INSERT OR IGNORE INTO users (tg_id, name, is_premium,
joined_at) VALUES (?,?,0,?)` — the unique tg_id key makes the insert a
no-op when a row exists. -/
def ensure_user (db : DB) (tg : Int) (name : String) (now : Nat) : DB :=
  if db.users.any (fun u => u.tg_id == tg) then db
  else { db with users := db.users ++ [⟨tg, name, 0, now⟩] }

/-- user_is_premium_sync: `SELECT is_premium FROM users WHERE tg_id=?`,
then `bool(row[is_premium]) if row else False`. -/
def user_is_premium_sync (db : DB) (tg : Int) : Bool :=
  match db.users.find? (fun u => u.tg_id == tg) with
  | some row => row.is_premium != 0
  | none => false

/-- The `ORDER BY created_at DESC, id DESC` relation of
fetch_items_sync: newest first, ties broken by descending id. -/
def newestFirst (a b : ContentRow) : Prop :=
  b.created_at < a.created_at ∨ (a.created_at = b.created_at ∧ b.id ≤ a.id)

instance : DecidableRel newestFirst := fun a b =>
  inferInstanceAs (Decidable (b.created_at < a.created_at ∨ (a.created_at = b.created_at ∧ b.id ≤ a.id)))

instance : IsTotal ContentRow newestFirst :=
  ⟨fun a b => by unfold newestFirst; omega⟩

instance : IsTrans ContentRow newestFirst :=
  ⟨fun a b c h1 h2 => by unfold newestFirst at *; omega⟩

/-- The WHERE clause of fetch_items_sync. -/
def contentMatches (c cat s ch : String) (r : ContentRow) : Bool :=
  r.class_num == c && r.category == cat && r.subject == s && r.chapter == ch

/-- fetch_items_sync: `SELECT * FROM content WHERE class_num=? AND
category=? AND subject=? AND chapter=? ORDER BY created_at DESC, id
DESC`, modelled as a stable sort of the filtered rows. -/
def fetch_items_sync (db : DB) (c cat s ch : String) : List ContentRow :=
  List.insertionSort newestFirst (db.content.filter (contentMatches c cat s ch))

/-- What send_items renders for one page of a chapter. -/
structure ItemPageRender where
  pageItems : List ContentRow
  lockOpen : List Bool
  hasPrev : Bool
  hasNext : Bool
  hasSendRange : Bool
  showBuy : Bool
deriving Repr, DecidableEq

/-- send_items: fetch all matching items, slice `items[start:start+PAGE_SIZE]`
with `start = page * PAGE_SIZE`, render a lock glyph per line (open when
the user is premium or the item is not premium), a Prev button when
`start > 0`, a Next button when `start + PAGE_SIZE < len(items)`, a
send-range button when the page is non-empty, and a Buy Premium button
for non-premium users. (Page indices reachable through the UI are
naturals: page 0 plus or minus one step guarded by the Prev button.) -/
def send_items (db : DB) (tg : Int) (c cat s ch : String) (page : Nat) : ItemPageRender :=
  let items := fetch_items_sync db c cat s ch
  let premium_user := user_is_premium_sync db tg
  let start := page * PAGE_SIZE
  let page_items := (items.drop start).take PAGE_SIZE
  { pageItems := page_items
    lockOpen := page_items.map (fun r => premium_user || r.premium == 0)
    hasPrev := decide (0 < start)
    hasNext := decide (start + PAGE_SIZE < items.length)
    hasSendRange := !page_items.isEmpty
    showBuy := !premium_user }

/-- The document caption built by send_documents_by_range. -/
def docCaption (c cat s ch title : String) : String :=
  title ++ "\n(Class " ++ c ++ " • " ++ cat ++ " • " ++ s ++ " • " ++ ch ++ ")"

/-- The locked notice sent instead of a premium file. -/
def lockedNotice (title : String) : String :=
  "🔒 " ++ title ++ " — Premium only. Use /buy to unlock."

/-- send_documents_by_range: re-fetch the items, re-read the premium
flag from the store, slice `items[start:start+count]`, and for each row
either send the locked notice (premium item, non-premium user) or
attempt the document upload (chat action then reply_document). -/
def send_documents_by_range (db : DB) (tg : Int) (c cat s ch : String) (start count : Nat) : List Msg :=
  let items := fetch_items_sync db c cat s ch
  let premium_user := user_is_premium_sync db tg
  let subset := (items.drop start).take count
  subset.flatMap (fun r =>
    if r.premium != 0 && !premium_user then
      [Msg.reply (lockedNotice r.title)]
    else
      [Msg.chatActionUpload, Msg.document r.file_id (docCaption c cat s ch r.title)])

/-- The admin notification text of redeem_cmd. -/
def redeemAdminText (name : String) (tg : Int) (txn : String) : String :=
  "Redeem request from " ++ name ++ " (#" ++ toString tg ++ ")\nTXN: " ++ txn

/-- redeem_cmd: ensure_user, then split the stripped message text with
maxsplit=1; fewer than two parts replies usage; otherwise append one
purchases row tagged manual-upi, acknowledge the user, and loop over
ADMIN_IDS sending each admin a notification inside try/except pass —
`notifyFails` says which sends the transport throws away; a failure
never stops the loop. -/
def redeem_cmd (db : DB) (adminIds : List Int) (tg : Int) (name : String) (text : String) (now : Nat) (notifyFails : Int → Bool) : DB × List Msg :=
  let db1 := ensure_user db tg name now
  match pySplitWsOnce (pyStrip text) with
  | _ :: arg :: _ =>
    let txn := pyStrip arg
    let db2 := { db1 with purchases := db1.purchases ++ [⟨tg, txn, "manual-upi", now⟩] }
    (db2,
      Msg.reply ("Thanks! ✅ Aapka TXN ID receive ho gaya. Admin verify karte hi premium mil jayega.")
        :: adminIds.filterMap (fun aid =>
             if notifyFails aid then none
             else some (Msg.sendTo aid (redeemAdminText name tg txn))))
  | _ => (db1, [Msg.reply ("Usage: /redeem <TXN_ID>")])

/-- The `UPDATE users SET is_premium=1 WHERE tg_id=?` row transform. -/
def setPrem (target : Int) (x : UserRow) : UserRow :=
  if x.tg_id == target then { x with is_premium := 1 } else x

/-- The UPDATE statement of make_premium_cmd applied to the store. -/
def makePremiumUpdate (db : DB) (target : Int) : DB :=
  { db with users := db.users.map (setPrem target) }

/-- The success reply of make_premium_cmd. -/
def makePremiumReply (target : Int) : String :=
  "User " ++ toString target ++ " is now PREMIUM ✅"

/-- The congratulation message make_premium_cmd pushes to the target. -/
def congratsText : String := "Congrats! ⭐ Aapka premium activate ho gaya."

/-- make_premium_cmd: silently ignore non-admin callers; split the
message text on whitespace; fewer than two parts replies usage;
otherwise `int(parts[1])` (none models the uncaught ValueError), run the
UPDATE, reply success to the admin, and attempt the congratulation
message to the target inside try/except pass. -/
def make_premium_cmd (db : DB) (adminIds : List Int) (sender : Int) (text : String) : Option (DB × List Msg) :=
  if !is_admin adminIds sender then some (db, [])
  else
    match pySplitWs text with
    | _ :: arg :: _ =>
      match pyInt? arg with
      | none => none
      | some target =>
        some (makePremiumUpdate db target,
          [Msg.reply (makePremiumReply target), Msg.sendTo target congratsText])
    | _ => some (db, [Msg.reply ("Usage: /make_premium <tg_id>")])

/-- parse_caption: split the caption on the pipe character, strip each
part; exactly six parts with a configured class and category succeed;
the premium flag is 1 exactly on the TRUTHY strings. -/
def parse_caption (caption : String) : Option (String × String × String × String × String × Nat) :=
  match pySplitStrip '|' caption with
  | [class_num, category, subject, chapter, title, premium] =>
    if CLASSES.contains class_num then
      if CATEGORIES.contains category then
        some (class_num, category, subject, chapter, title,
              if TRUTHY.contains premium then 1 else 0)
      else none
    else none
  | _ => none

/-- The rejection text of admin_doc_handler. -/
def uploadUsageText : String :=
  "Admin upload failed. Caption format:\nclass|category|subject|chapter|title|premium\nExample:\n10|PYQ|Maths|Ch-4 Trig|2019 Set-1|0"

/-- The saved confirmation of admin_doc_handler. -/
def savedText (class_num category subject chapter title : String) (prem : Nat) : String :=
  "Saved ✅\nClass " ++ class_num ++ " • " ++ category ++ " • " ++ subject ++ " • " ++ chapter ++ "\nTitle: " ++ title ++ "\nPremium: " ++ toString prem

/-- admin_doc_handler: silently ignore non-admin callers; a missing
document or a failed caption parse replies the format text; otherwise
insert one content row (file id of the attached document) and confirm.
`doc` is the file id of the attached document, none when absent. -/
def admin_doc_handler (db : DB) (adminIds : List Int) (sender : Int) (doc : Option String) (caption : String) (now : Nat) : DB × List Msg :=
  if !is_admin adminIds sender then (db, [])
  else
    match doc, parse_caption caption with
    | some file_id, some (class_num, category, subject, chapter, title, prem) =>
      ({ db with content := db.content ++
           [⟨nextContentId db, class_num, category, subject, chapter, title, file_id, prem, now⟩] },
       [Msg.reply (savedText class_num category subject chapter title prem)])
    | _, _ => (db, [Msg.reply (uploadUsageText)])

/-- Fields of a successfully parsed /addquiz payload. -/
structure QuizInput where
  class_num : String
  subject : String
  chapter : String
  question : String
  option1 : String
  option2 : String
  option3 : String
  option4 : String
  correct_index : Int
  premium : Nat
deriving Repr, DecidableEq

/-- The try-block of addquiz_cmd: peel the command word, class, subject
and chapter with `split(" ", 1)` each, split the remainder on pipes into
exactly question, options, correct index and premium flag, split the
options on semicolons into exactly four, and parse the correct index as
an int; any mismatch is the caught exception. -/
def addquiz_parse (text : String) : Option QuizInput :=
  match pySplitSpaceOnce text with
  | [_, rest1] =>
    match pySplitSpaceOnce rest1 with
    | [class_num, rest2] =>
      match pySplitSpaceOnce rest2 with
      | [subject, rest3] =>
        match pySplitSpaceOnce rest3 with
        | [chapter, rest4] =>
          match pySplitStrip '|' rest4 with
          | [q, opts, corr, prem] =>
            match pySplitStrip ';' opts with
            | [o1, o2, o3, o4] =>
              match pyInt? corr with
              | some ci =>
                some ⟨class_num, subject, chapter, q, o1, o2, o3, o4, ci,
                      if TRUTHY.contains prem then 1 else 0⟩
              | none => none
            | _ => none
          | _ => none
        | _ => none
      | _ => none
    | _ => none
  | _ => none

/-- The usage example replied by addquiz_cmd on malformed input. -/
def addquizUsageText : String :=
  "Format: /addquiz <class> <subject> <chapter> <question> | opt1 ; opt2 ; opt3 ; opt4 | correct_index | premium\nExample:\n/addquiz 10 Maths Chapter-2 \"2+2?\" | 1 ; 2 ; 3 ; 4 | 4 | 0"

/-- The quizzes row inserted for a parsed payload (question stripped of
surrounding double quotes at insert time, as in the source). -/
def quizRowOf (qi : QuizInput) (now : Nat) : QuizRow :=
  ⟨qi.class_num, qi.subject, qi.chapter, stripQuotes qi.question,
   qi.option1, qi.option2, qi.option3, qi.option4, qi.correct_index, qi.premium, now⟩

/-- addquiz_cmd: silently ignore non-admin callers; a failed parse
replies the usage example and persists nothing; a successful parse
inserts exactly one quizzes row and confirms. -/
def addquiz_cmd (db : DB) (adminIds : List Int) (sender : Int) (text : String) (now : Nat) : DB × List Msg :=
  if !is_admin adminIds sender then (db, [])
  else
    match addquiz_parse text with
    | none => (db, [Msg.reply (addquizUsageText)])
    | some qi =>
      ({ db with quizzes := db.quizzes ++ [quizRowOf qi now] },
       [Msg.reply ("Quiz added ✅")])

/-- PRICE_TEXT: the static manual-payment instructions. -/
def PRICE_TEXT : String :=
  String.intercalate ("\n")
    [("⭐ *Premium Plans*"),
     ("• 1 Month: ₹99"),
     ("• 3 Months: ₹249"),
     ("• 12 Months: ₹699"),
     (""),
     ("Premium me Test Series, Exclusive Handwritten Notes, Full Sample Papers, Fast Support unlock hoga."),
     (""),
     ("1) UPI se pay karein: `" ++ PAYMENT_UPI_ID ++ "`"),
     ("2) Payment note me likhein: `" ++ PAYMENT_NOTE ++ "`"),
     ("3) Yahan bhejein: /redeem <TXN_ID> (jaise /redeem 12345ABCD)"),
     ("4) Admin verify karega aur aapko Premium de diya jayega.")]

/-- The payment-gateway configuration: library import success and the
two credential environment variables (a Python env string is falsy when
unset or empty). -/
structure Gateway where
  available : Bool
  key_id : Option String
  key_secret : Option String
deriving Repr, DecidableEq

/-- Python truthiness of an optional env string. -/
def strTruthy : Option String → Bool
  | none => false
  | some s => !s.isEmpty

/-- The guard `RAZORPAY_AVAILABLE and RAZORPAY_KEY_ID and
RAZORPAY_KEY_SECRET` shared by buy_cmd and buy_cb_router. -/
def gatewayConfigured (g : Gateway) : Bool :=
  g.available && strTruthy g.key_id && strTruthy g.key_secret

/-- What buy_cmd shows. -/
inductive BuyCmdResult where
  | planMenu (labels : List String)
  | manualInstructions (text : String)
deriving Repr, DecidableEq

/-- buy_cmd: with a configured gateway show the plan buttons, otherwise
reply the static manual-payment markdown. -/
def buy_cmd (g : Gateway) : BuyCmdResult :=
  if gatewayConfigured g then BuyCmdResult.planMenu (PLANS.map (fun kp => kp.2.label))
  else BuyCmdResult.manualInstructions PRICE_TEXT

/-- Outcome of buy_cb_router. `createOrder` stands for continuing into
the gateway order-creation code that follows the early returns. -/
inductive BuyCbOutcome where
  | fallbackInstructions (text : String)
  | invalidPlan
  | createOrder (plan : Plan)
deriving Repr, DecidableEq

/-- buy_cb_router: an unconfigured gateway degrades to the manual
instructions; `PLANS.get(key)` missing answers an invalid-plan alert and
returns before any order is created; a known plan proceeds to order
creation. -/
def buy_cb_router (g : Gateway) (key : String) : BuyCbOutcome :=
  if !gatewayConfigured g then BuyCbOutcome.fallbackInstructions PRICE_TEXT
  else
    match (PLANS.find? (fun kp => kp.1 == key)).map (fun kp => kp.2) with
    | none => BuyCbOutcome.invalidPlan
    | some p => BuyCbOutcome.createOrder p

/-- The gateway order created by an outcome, if any. -/
def ordersCreated : BuyCbOutcome → Option Plan
  | BuyCbOutcome.createOrder p => some p
  | _ => none

/-- Premium reads only look at the users table. -/
theorem users_eq_premium_eq (db db' : DB) (h : db'.users = db.users) (u : Int) :
    user_is_premium_sync db' u = user_is_premium_sync db u := by
  unfold user_is_premium_sync
  rw [h]

/-- A user with no row in the users table is read as non-premium. -/
theorem no_row_premium_false (db : DB) (tg : Int)
    (h : ∀ u ∈ db.users, u.tg_id ≠ tg) :
    user_is_premium_sync db tg = false := by
  unfold user_is_premium_sync
  have hn : db.users.find? (fun u => u.tg_id == tg) = none :=
    List.find?_eq_none.mpr (fun x hx => by simp [h x hx])
  rw [hn]

/-- ensure_user never changes the premium reading of any user: an
existing row is left alone, and a fresh row carries is_premium = 0. -/
theorem ensure_user_premium_eq (db : DB) (tg : Int) (nm : String) (now : Nat) (u : Int) :
    user_is_premium_sync (ensure_user db tg nm now) u = user_is_premium_sync db u := by
  unfold ensure_user
  split
  · rfl
  · unfold user_is_premium_sync
    simp only [List.find?_append]
    cases hf : db.users.find? (fun x => x.tg_id == u) with
    | some r => rfl
    | none =>
      simp only [Option.none_or]
      cases hq : (⟨tg, nm, 0, now⟩ : UserRow).tg_id == u <;>
        simp [List.find?_cons, hq]

/-- setPrem keeps the row key. -/
theorem setPrem_tg_id (t : Int) (x : UserRow) : (setPrem t x).tg_id = x.tg_id := by
  unfold setPrem
  split <;> rfl

/-- find? by key commutes with the key-preserving setPrem map. -/
theorem find?_map_setPrem (t u : Int) (l : List UserRow) :
    (l.map (setPrem t)).find? (fun x => x.tg_id == u)
      = (l.find? (fun x => x.tg_id == u)).map (setPrem t) := by
  induction l with
  | nil => rfl
  | cons x xs ih =>
    simp only [List.map_cons, List.find?_cons, setPrem_tg_id]
    cases h : x.tg_id == u <;> simp [h, ih]

/-- setPrem is idempotent on a row. -/
theorem setPrem_idem (t : Int) (x : UserRow) : setPrem t (setPrem t x) = setPrem t x := by
  unfold setPrem
  cases h : x.tg_id == t <;> simp [h]

/-- The activation UPDATE is idempotent on the store. -/
theorem makePremiumUpdate_idem (db : DB) (t : Int) :
    makePremiumUpdate (makePremiumUpdate db t) t = makePremiumUpdate db t := by
  have hm : (db.users.map (setPrem t)).map (setPrem t) = db.users.map (setPrem t) := by
    rw [List.map_map]
    exact List.map_congr_left (fun a _ => setPrem_idem t a)
  simp [makePremiumUpdate, hm]

/-- After the activation UPDATE, a target that has a row reads as
premium. -/
theorem makePremiumUpdate_premium_true (db : DB) (t : Int)
    (h : db.users.any (fun x => x.tg_id == t) = true) :
    user_is_premium_sync (makePremiumUpdate db t) t = true := by
  unfold user_is_premium_sync makePremiumUpdate
  simp only [find?_map_setPrem]
  have hs : (db.users.find? (fun x => x.tg_id == t)).isSome :=
    List.find?_isSome.mpr (List.any_eq_true.mp h)
  cases hf : db.users.find? (fun x => x.tg_id == t) with
  | none => rw [hf] at hs; simp at hs
  | some r =>
    have hp := List.find?_some hf
    simp [hf, setPrem, hp]

/-- The activation UPDATE never lowers anyone: a premium reading stays
true. -/
theorem makePremiumUpdate_mono (db : DB) (t u : Int)
    (h : user_is_premium_sync db u = true) :
    user_is_premium_sync (makePremiumUpdate db t) u = true := by
  unfold user_is_premium_sync makePremiumUpdate at *
  simp only [find?_map_setPrem]
  cases hf : db.users.find? (fun x => x.tg_id == u) with
  | none => rw [hf] at h; simp at h
  | some r =>
    rw [hf] at h
    show ((setPrem t r).is_premium != 0) = true
    unfold setPrem
    split
    · simp
    · exact h

/-- The activation UPDATE matching no row leaves the store unchanged. -/
theorem makePremiumUpdate_noRow (db : DB) (t : Int)
    (h : ∀ u ∈ db.users, u.tg_id ≠ t) : makePremiumUpdate db t = db := by
  have hm : db.users.map (setPrem t) = db.users := by
    have h2 : db.users.map (setPrem t) = db.users.map id :=
      List.map_congr_left (fun a ha => by simp [setPrem, h a ha])
    rw [h2, List.map_id]
  simp [makePremiumUpdate, hm]

/-- redeem_cmd only touches the purchases table (after the user
upsert). -/
theorem redeem_cmd_users (db : DB) (adminIds : List Int) (tg : Int) (nm text : String)
    (now : Nat) (fails : Int → Bool) :
    (redeem_cmd db adminIds tg nm text now fails).1.users = (ensure_user db tg nm now).users := by
  unfold redeem_cmd
  split <;> rfl

/-- admin_doc_handler only touches the content table. -/
theorem admin_doc_handler_users (db : DB) (adminIds : List Int) (sender : Int)
    (doc : Option String) (cap : String) (now : Nat) :
    (admin_doc_handler db adminIds sender doc cap now).1.users = db.users := by
  unfold admin_doc_handler
  split
  · rfl
  · split <;> rfl

/-- addquiz_cmd only touches the quizzes table. -/
theorem addquiz_cmd_users (db : DB) (adminIds : List Int) (sender : Int)
    (text : String) (now : Nat) :
    (addquiz_cmd db adminIds sender text now).1.users = db.users := by
  unfold addquiz_cmd
  split
  · rfl
  · split <;> rfl

/-- C9: a user id with no row in the users store reads as non-premium
rather than failing. -/
theorem user_is_premium_sync_unknown_user (db : DB) (tg : Int)
    (h : ∀ u ∈ db.users, u.tg_id ≠ tg) :
    user_is_premium_sync db tg = false :=
  no_row_premium_false db tg h

/-- Witness for C9 at a concrete store holding only an unrelated user. -/
theorem user_is_premium_sync_unknown_user_witness :
    user_is_premium_sync (⟨[⟨3, ("B"), 1, 0⟩], [], [], []⟩ : DB) 42 = false :=
  user_is_premium_sync_unknown_user (⟨[⟨3, ("B"), 1, 0⟩], [], [], []⟩ : DB) 42 (by decide)

/-- C10: the admin activation command on a target with no user row
leaves the whole store unchanged (so the target still reads as
non-premium), yet replies activation success to the admin and attempts
the congratulation message to the target. -/
theorem make_premium_cmd_missing_target (db : DB) (adminIds : List Int) (sender : Int)
    (text cmdw arg : String) (rest : List String) (target : Int)
    (hadm : is_admin adminIds sender = true)
    (hsplit : pySplitWs text = cmdw :: arg :: rest)
    (hint : pyInt? arg = some target)
    (habs : ∀ u ∈ db.users, u.tg_id ≠ target) :
    make_premium_cmd db adminIds sender text
      = some (db, [Msg.reply (makePremiumReply target), Msg.sendTo target congratsText]) ∧
    user_is_premium_sync db target = false := by
  constructor
  · simp [make_premium_cmd, hadm, hsplit, hint, makePremiumUpdate_noRow db target habs]
  · exact no_row_premium_false db target habs

/-- Witness for C10: store with one unrelated user, target 5. -/
theorem make_premium_cmd_missing_target_witness :
    make_premium_cmd (⟨[⟨3, ("B"), 0, 0⟩], [], [], []⟩ : DB) [1] 1 ("/make_premium 5")
      = some ((⟨[⟨3, ("B"), 0, 0⟩], [], [], []⟩ : DB),
              [Msg.reply (makePremiumReply 5), Msg.sendTo 5 congratsText]) ∧
    user_is_premium_sync (⟨[⟨3, ("B"), 0, 0⟩], [], [], []⟩ : DB) 5 = false :=
  make_premium_cmd_missing_target (⟨[⟨3, ("B"), 0, 0⟩], [], [], []⟩ : DB) [1] 1
    ("/make_premium 5") ("/make_premium") ("5") [] 5
    (by decide) (by decide) (by decide) (by decide)

/-- C1 counterexample: run the admin activation twice for user 5. The
second call is not a side-effect no-op: its reply list again contains
the success reply and the congratulation message to the user, exactly as
the first call. -/
theorem make_premium_cmd_second_call_resends :
    make_premium_cmd (⟨[⟨5, ("A"), 0, 0⟩], [], [], []⟩ : DB) [1] 1 ("/make_premium 5")
      = some ((⟨[⟨5, ("A"), 1, 0⟩], [], [], []⟩ : DB),
              [Msg.reply (makePremiumReply 5), Msg.sendTo 5 congratsText]) ∧
    make_premium_cmd (⟨[⟨5, ("A"), 1, 0⟩], [], [], []⟩ : DB) [1] 1 ("/make_premium 5")
      = some ((⟨[⟨5, ("A"), 1, 0⟩], [], [], []⟩ : DB),
              [Msg.reply (makePremiumReply 5), Msg.sendTo 5 congratsText]) := by
  constructor <;> decide

/-- C1 amended: activation run twice for the same target is idempotent
at the state level — the second call returns the store the first call
produced, and a target that has a user row reads as premium after either
call — but the second call repeats the side effects: it replies success
and re-sends the congratulation message, with a reply list identical to
the first call. -/
theorem make_premium_cmd_state_idempotent (db : DB) (adminIds : List Int) (sender : Int)
    (text cmdw arg : String) (rest : List String) (target : Int)
    (hadm : is_admin adminIds sender = true)
    (hsplit : pySplitWs text = cmdw :: arg :: rest)
    (hint : pyInt? arg = some target)
    (hrow : db.users.any (fun x => x.tg_id == target) = true) :
    make_premium_cmd db adminIds sender text
      = some (makePremiumUpdate db target,
              [Msg.reply (makePremiumReply target), Msg.sendTo target congratsText]) ∧
    make_premium_cmd (makePremiumUpdate db target) adminIds sender text
      = some (makePremiumUpdate db target,
              [Msg.reply (makePremiumReply target), Msg.sendTo target congratsText]) ∧
    user_is_premium_sync (makePremiumUpdate db target) target = true := by
  refine ⟨?_, ?_, makePremiumUpdate_premium_true db target hrow⟩
  · simp [make_premium_cmd, hadm, hsplit, hint]
  · simp [make_premium_cmd, hadm, hsplit, hint, makePremiumUpdate_idem]

/-- Witness for the amended C1 at the concrete store of the
counterexample. -/
theorem make_premium_cmd_state_idempotent_witness :
    make_premium_cmd (⟨[⟨5, ("A"), 0, 0⟩], [], [], []⟩ : DB) [1] 1 ("/make_premium 5")
      = some (makePremiumUpdate (⟨[⟨5, ("A"), 0, 0⟩], [], [], []⟩ : DB) 5,
              [Msg.reply (makePremiumReply 5), Msg.sendTo 5 congratsText]) ∧
    make_premium_cmd (makePremiumUpdate (⟨[⟨5, ("A"), 0, 0⟩], [], [], []⟩ : DB) 5) [1] 1 ("/make_premium 5")
      = some (makePremiumUpdate (⟨[⟨5, ("A"), 0, 0⟩], [], [], []⟩ : DB) 5,
              [Msg.reply (makePremiumReply 5), Msg.sendTo 5 congratsText]) ∧
    user_is_premium_sync (makePremiumUpdate (⟨[⟨5, ("A"), 0, 0⟩], [], [], []⟩ : DB) 5) 5 = true :=
  make_premium_cmd_state_idempotent (⟨[⟨5, ("A"), 0, 0⟩], [], [], []⟩ : DB) [1] 1
    ("/make_premium 5") ("/make_premium") ("5") [] 5
    (by decide) (by decide) (by decide) (by decide)

/-- C2: premium status is monotone — once a user reads as premium, the
user upsert, the activation UPDATE, the full activation command, manual
redemption, content ingestion and quiz ingestion all leave the reading
true. (Browsing and delivery handlers return no store and cannot change
it.) -/
theorem premium_monotone (db : DB) (u : Int)
    (tg : Int) (nm : String) (now : Nat)
    (adminIds : List Int) (sender : Int) (rtext mtext cap qtext : String)
    (fails : Int → Bool) (target : Int) (doc : Option String)
    (h : user_is_premium_sync db u = true) :
    user_is_premium_sync (ensure_user db tg nm now) u = true ∧
    user_is_premium_sync (makePremiumUpdate db target) u = true ∧
    (∀ db' msgs, make_premium_cmd db adminIds sender mtext = some (db', msgs) →
      user_is_premium_sync db' u = true) ∧
    user_is_premium_sync (redeem_cmd db adminIds tg nm rtext now fails).1 u = true ∧
    user_is_premium_sync (admin_doc_handler db adminIds sender doc cap now).1 u = true ∧
    user_is_premium_sync (addquiz_cmd db adminIds sender qtext now).1 u = true := by
  refine ⟨?_, makePremiumUpdate_mono db target u h, ?_, ?_, ?_, ?_⟩
  · rw [ensure_user_premium_eq]; exact h
  · intro db' msgs hc
    unfold make_premium_cmd at hc
    split at hc
    · simp only [Option.some.injEq, Prod.mk.injEq] at hc
      rw [← hc.1]; exact h
    · split at hc
      · split at hc
        · exact absurd hc (by simp)
        · simp only [Option.some.injEq, Prod.mk.injEq] at hc
          rw [← hc.1]
          exact makePremiumUpdate_mono db _ u h
      · simp only [Option.some.injEq, Prod.mk.injEq] at hc
        rw [← hc.1]; exact h
  · rw [users_eq_premium_eq (ensure_user db tg nm now) _
        (redeem_cmd_users db adminIds tg nm rtext now fails),
      ensure_user_premium_eq]
    exact h
  · rw [users_eq_premium_eq db _ (admin_doc_handler_users db adminIds sender doc cap now)]
    exact h
  · rw [users_eq_premium_eq db _ (addquiz_cmd_users db adminIds sender qtext now)]
    exact h

/-- Witness for C2 at a concrete premium user. -/
theorem premium_monotone_witness :
    user_is_premium_sync (ensure_user (⟨[⟨5, ("A"), 1, 0⟩], [], [], []⟩ : DB) 7 ("N") 3) 5 = true :=
  (premium_monotone (⟨[⟨5, ("A"), 1, 0⟩], [], [], []⟩ : DB) 5 7 ("N") 3 [] 0
    ("") ("") ("") ("") (fun _ => false) 0 none (by decide)).1

/-- C3: the bulk-delivery operation attempts the file send for exactly
the items of the requested slice with item.premium == false or a premium
user, and yields the locked notice for the others; the premium flag used
is read from the store given to the delivery call, so an activation that
lands between render and click is honoured — after the activation UPDATE
for the clicking user (who has a user row), every item of the slice is
delivered. -/
theorem delivery_gating (db : DB) (tg : Int) (c cat s ch : String) (start count : Nat) :
    send_documents_by_range db tg c cat s ch start count
      = (((fetch_items_sync db c cat s ch).drop start).take count).flatMap
          (fun r =>
            if r.premium = 0 ∨ user_is_premium_sync db tg = true then
              [Msg.chatActionUpload, Msg.document r.file_id (docCaption c cat s ch r.title)]
            else [Msg.reply (lockedNotice r.title)]) ∧
    (db.users.any (fun x => x.tg_id == tg) = true →
      send_documents_by_range (makePremiumUpdate db tg) tg c cat s ch start count
        = (((fetch_items_sync db c cat s ch).drop start).take count).flatMap
            (fun r =>
              [Msg.chatActionUpload, Msg.document r.file_id (docCaption c cat s ch r.title)])) := by
  constructor
  · simp only [send_documents_by_range]
    congr 1
    funext r
    cases hp : r.premium <;> cases hu : user_is_premium_sync db tg <;> simp [hp, hu]
  · intro hrow
    have hp := makePremiumUpdate_premium_true db tg hrow
    have hfetch : fetch_items_sync (makePremiumUpdate db tg) c cat s ch
        = fetch_items_sync db c cat s ch := rfl
    simp only [send_documents_by_range, hfetch, hp]
    congr 1
    funext r
    simp

/-- Witness for C3: after activating the user who holds a row, the
single premium item of the store is delivered, not locked. -/
theorem delivery_gating_witness :
    send_documents_by_range
        (makePremiumUpdate (⟨[⟨5, ("A"), 0, 0⟩],
          [⟨1, ("10"), ("PYQ"), ("Maths"), ("Ch-4"), ("T"), ("F1"), 1, 0⟩], [], []⟩ : DB) 5)
        5 ("10") ("PYQ") ("Maths") ("Ch-4") 0 1
      = (((fetch_items_sync (⟨[⟨5, ("A"), 0, 0⟩],
            [⟨1, ("10"), ("PYQ"), ("Maths"), ("Ch-4"), ("T"), ("F1"), 1, 0⟩], [], []⟩ : DB)
            ("10") ("PYQ") ("Maths") ("Ch-4")).drop 0).take 1).flatMap
          (fun r =>
            [Msg.chatActionUpload,
             Msg.document r.file_id (docCaption ("10") ("PYQ") ("Maths") ("Ch-4") r.title)]) :=
  (delivery_gating (⟨[⟨5, ("A"), 0, 0⟩],
      [⟨1, ("10"), ("PYQ"), ("Maths"), ("Ch-4"), ("T"), ("F1"), 1, 0⟩], [], []⟩ : DB)
      5 ("10") ("PYQ") ("Maths") ("Ch-4") 0 1).2 (by decide)

/-- C4: page p of a chapter listing holds exactly the slice
[p*PAGE_SIZE, min((p+1)*PAGE_SIZE, N)) of the fetched item list, the
Prev control is present exactly when p*PAGE_SIZE > 0, the Next control
exactly when (p+1)*PAGE_SIZE < N, and the fetched list is the filtered
content sorted newest first with ties broken by descending id. -/
theorem pagination_correct (db : DB) (tg : Int) (c cat s ch : String) (p : Nat) :
    (send_items db tg c cat s ch p).pageItems
      = ((fetch_items_sync db c cat s ch).drop (p * PAGE_SIZE)).take PAGE_SIZE ∧
    (∀ i, i < PAGE_SIZE →
      ((send_items db tg c cat s ch p).pageItems)[i]?
        = (fetch_items_sync db c cat s ch)[p * PAGE_SIZE + i]?) ∧
    (send_items db tg c cat s ch p).pageItems.length
      = min ((p + 1) * PAGE_SIZE) (fetch_items_sync db c cat s ch).length - p * PAGE_SIZE ∧
    ((send_items db tg c cat s ch p).hasPrev = true ↔ 0 < p * PAGE_SIZE) ∧
    ((send_items db tg c cat s ch p).hasNext = true
      ↔ (p + 1) * PAGE_SIZE < (fetch_items_sync db c cat s ch).length) ∧
    List.Sorted newestFirst (fetch_items_sync db c cat s ch) ∧
    (fetch_items_sync db c cat s ch).Perm
      (db.content.filter (contentMatches c cat s ch)) := by
  refine ⟨rfl, ?_, ?_, ?_, ?_,
    List.sorted_insertionSort newestFirst _, List.perm_insertionSort newestFirst _⟩
  · intro i hi
    show (((fetch_items_sync db c cat s ch).drop (p * PAGE_SIZE)).take PAGE_SIZE)[i]? = _
    rw [List.getElem?_take_of_lt hi, List.getElem?_drop]
  · show (((fetch_items_sync db c cat s ch).drop (p * PAGE_SIZE)).take PAGE_SIZE).length = _
    rw [List.length_take, List.length_drop, Nat.succ_mul]
    omega
  · show (decide (0 < p * PAGE_SIZE) = true) ↔ 0 < p * PAGE_SIZE
    rw [decide_eq_true_eq]
  · show (decide (p * PAGE_SIZE + PAGE_SIZE < (fetch_items_sync db c cat s ch).length) = true) ↔ _
    rw [decide_eq_true_eq, Nat.succ_mul]

/-- Witness for C4 on a concrete store, page 0, index 0. -/
theorem pagination_correct_witness :
    ((send_items (⟨[], [], [], []⟩ : DB) 1 ("10") ("PYQ") ("Maths") ("Ch-1") 0).pageItems)[0]?
      = (fetch_items_sync (⟨[], [], [], []⟩ : DB) ("10") ("PYQ") ("Maths") ("Ch-1"))[0 * PAGE_SIZE + 0]? :=
  (pagination_correct (⟨[], [], [], []⟩ : DB) 1 ("10") ("PYQ") ("Maths") ("Ch-1") 0).2.1 0 (by decide)

/-- C5: a caption parses exactly when it splits into six pipe-delimited
(stripped) fields whose first field is a configured class and second a
configured category; a successful parse returns the fields with the
premium flag 1 exactly on the TRUTHY strings; the three concrete spec
examples behave as stated; and a failed parse leaves the store untouched
in the upload handler. -/
theorem caption_parsing :
    (∀ cap : String, (parse_caption cap).isSome = true ↔
      ∃ a b c d e f, pySplitStrip '|' cap = [a, b, c, d, e, f] ∧ a ∈ CLASSES ∧ b ∈ CATEGORIES) ∧
    (∀ (cap a b c d e f : String), pySplitStrip '|' cap = [a, b, c, d, e, f] →
      a ∈ CLASSES → b ∈ CATEGORIES →
      parse_caption cap = some (a, b, c, d, e, if TRUTHY.contains f then 1 else 0)) ∧
    parse_caption ("10|PYQ|Maths|Ch-4 Trig|2019 Set-1|0")
      = some (("10"), ("PYQ"), ("Maths"), ("Ch-4 Trig"), ("2019 Set-1"), 0) ∧
    parse_caption ("10|PYQ|Maths|Ch-4") = none ∧
    parse_caption ("13|PYQ|Maths|Ch-4|T|0") = none ∧
    (∀ (db : DB) (adminIds : List Int) (sender : Int) (doc : Option String) (cap : String) (now : Nat),
      parse_caption cap = none →
      (admin_doc_handler db adminIds sender doc cap now).1 = db) := by
  refine ⟨?_, ?_, by decide, by decide, by decide, ?_⟩
  · intro cap
    unfold parse_caption
    split
    next a b c d e f heq =>
      constructor
      · intro h
        by_cases h1 : a ∈ CLASSES
        · by_cases h2 : b ∈ CATEGORIES
          · exact ⟨a, b, c, d, e, f, heq, h1, h2⟩
          · simp [h1, h2] at h
        · simp [h1] at h
      · rintro ⟨a2, b2, c2, d2, e2, f2, hsp, ha, hb⟩
        rw [heq] at hsp
        obtain ⟨rfl, rfl, rfl, rfl, rfl, rfl⟩ :
            a = a2 ∧ b = b2 ∧ c = c2 ∧ d = d2 ∧ e = e2 ∧ f = f2 := by
          simpa using hsp
        simp [ha, hb]
    next hne =>
      simp only [Option.isSome_none, Bool.false_eq_true, false_iff]
      rintro ⟨a, b, c, d, e, f, hsp, _, _⟩
      exact hne a b c d e f hsp
  · intro cap a b c d e f hsp ha hb
    unfold parse_caption
    rw [hsp]
    simp [ha, hb]
  · intro db adminIds sender doc cap now hnone
    unfold admin_doc_handler
    split
    · rfl
    · rw [hnone]
      cases doc <;> rfl

/-- Witness for C5: a failed parse persists nothing, at a concrete
store and caption. -/
theorem caption_parsing_witness :
    (admin_doc_handler (⟨[], [], [], []⟩ : DB) [1] 1 (some ("F1")) ("not a caption") 0).1
      = (⟨[], [], [], []⟩ : DB) :=
  caption_parsing.2.2.2.2.2 (⟨[], [], [], []⟩ : DB) [1] 1 (some ("F1")) ("not a caption") 0 (by decide)

/-- C6 counterexample: an empty reference (bare /redeem) from a user
with no row is rejected with the usage text, but the handler still
persists the standard user upsert, so the store is not unchanged —
"persists nothing" fails as stated. -/
theorem redeem_cmd_empty_ref_persists_user_row :
    (redeem_cmd (⟨[], [], [], []⟩ : DB) [] 7 ("N") ("/redeem") 0 (fun _ => false)).1
      ≠ (⟨[], [], [], []⟩ : DB) ∧
    (redeem_cmd (⟨[], [], [], []⟩ : DB) [] 7 ("N") ("/redeem") 0 (fun _ => false)).2
      = [Msg.reply ("Usage: /redeem <TXN_ID>")] := by
  constructor <;> decide

/-- C6 amended: a non-empty reference appends exactly one purchase
record; the user acknowledgment is sent, and every configured admin
whose notification the transport does not throw away is notified,
independent of failures for the other admins; an empty reference is
rejected with usage text and appends no purchase record (the handler
still performs the standard idempotent user upsert); and in no case does
the redeem command change any premium reading. -/
theorem redeem_cmd_amended (db : DB) (adminIds : List Int) (tg : Int) (nm text : String)
    (now : Nat) (fails : Int → Bool) :
    ((pySplitWsOnce (pyStrip text)).length < 2 →
      redeem_cmd db adminIds tg nm text now fails
        = (ensure_user db tg nm now, [Msg.reply ("Usage: /redeem <TXN_ID>")])) ∧
    (∀ w arg rest, pySplitWsOnce (pyStrip text) = w :: arg :: rest →
      (redeem_cmd db adminIds tg nm text now fails).1.purchases
        = db.purchases ++ [⟨tg, pyStrip arg, ("manual-upi"), now⟩] ∧
      Msg.reply ("Thanks! ✅ Aapka TXN ID receive ho gaya. Admin verify karte hi premium mil jayega.")
        ∈ (redeem_cmd db adminIds tg nm text now fails).2 ∧
      (∀ aid ∈ adminIds, fails aid = false →
        Msg.sendTo aid (redeemAdminText nm tg (pyStrip arg))
          ∈ (redeem_cmd db adminIds tg nm text now fails).2)) ∧
    (∀ u, user_is_premium_sync (redeem_cmd db adminIds tg nm text now fails).1 u
        = user_is_premium_sync db u) := by
  refine ⟨?_, ?_, ?_⟩
  · intro hlen
    unfold redeem_cmd
    split
    next w arg rest heq =>
      rw [heq] at hlen
      simp only [List.length_cons] at hlen
      exact absurd hlen (by omega)
    next => rfl
  · intro w arg rest hsp
    unfold redeem_cmd
    rw [hsp]
    have hpur : (ensure_user db tg nm now).purchases = db.purchases := by
      unfold ensure_user; split <;> rfl
    refine ⟨by simp [hpur], by simp, ?_⟩
    intro aid hmem hfail
    simp only [List.mem_cons]
    right
    rw [List.mem_filterMap]
    exact ⟨aid, hmem, by rw [hfail]; simp⟩
  · intro u
    rw [users_eq_premium_eq (ensure_user db tg nm now) _
        (redeem_cmd_users db adminIds tg nm text now fails),
      ensure_user_premium_eq]

/-- Witness for the amended C6: user 7 redeems TX1 with admins 1 and 2
configured and the notification to admin 1 thrown away; one purchase row
is appended and admin 2 is still notified. -/
theorem redeem_cmd_amended_witness :
    (redeem_cmd (⟨[], [], [], []⟩ : DB) [1, 2] 7 ("N") ("/redeem TX1") 0 (fun a => a == 1)).1.purchases
      = (⟨[], [], [], []⟩ : DB).purchases ++ [⟨7, pyStrip ("TX1"), ("manual-upi"), 0⟩] ∧
    Msg.sendTo 2 (redeemAdminText ("N") 7 (pyStrip ("TX1")))
      ∈ (redeem_cmd (⟨[], [], [], []⟩ : DB) [1, 2] 7 ("N") ("/redeem TX1") 0 (fun a => a == 1)).2 := by
  have h := (redeem_cmd_amended (⟨[], [], [], []⟩ : DB) [1, 2] 7 ("N") ("/redeem TX1") 0
    (fun a => a == 1)).2.1 ("/redeem") ("TX1") [] (by decide)
  exact ⟨h.1, h.2.2 2 (by decide) (by decide)⟩

/-- C7: /addquiz persists a row only on a complete parse — a failed
parse replies the usage example and leaves the store untouched, a
successful parse appends exactly one quizzes row; the concrete payload
with three options instead of four fails to parse and persists nothing,
while the four-option payload parses. -/
theorem addquiz_validation :
    (∀ (db : DB) (adminIds : List Int) (sender : Int) (text : String) (now : Nat),
      is_admin adminIds sender = true → addquiz_parse text = none →
      addquiz_cmd db adminIds sender text now = (db, [Msg.reply (addquizUsageText)])) ∧
    (∀ (db : DB) (adminIds : List Int) (sender : Int) (text : String) (now : Nat) (qi : QuizInput),
      is_admin adminIds sender = true → addquiz_parse text = some qi →
      addquiz_cmd db adminIds sender text now
        = ({ db with quizzes := db.quizzes ++ [quizRowOf qi now] }, [Msg.reply ("Quiz added ✅")])) ∧
    addquiz_parse ("/addquiz 10 Maths Chapter-2 \"2+2?\" | 1 ; 2 ; 3 | 4 | 0") = none ∧
    (∀ (db : DB) (adminIds : List Int) (sender : Int) (now : Nat),
      is_admin adminIds sender = true →
      addquiz_cmd db adminIds sender ("/addquiz 10 Maths Chapter-2 \"2+2?\" | 1 ; 2 ; 3 | 4 | 0") now
        = (db, [Msg.reply (addquizUsageText)])) ∧
    addquiz_parse ("/addquiz 10 Maths Chapter-2 \"2+2?\" | 1 ; 2 ; 3 ; 4 | 4 | 0")
      = some ⟨("10"), ("Maths"), ("Chapter-2"), ("\"2+2?\""), ("1"), ("2"), ("3"), ("4"), 4, 0⟩ := by
  have hrej : ∀ (db : DB) (adminIds : List Int) (sender : Int) (text : String) (now : Nat),
      is_admin adminIds sender = true → addquiz_parse text = none →
      addquiz_cmd db adminIds sender text now = (db, [Msg.reply (addquizUsageText)]) := by
    intro db adminIds sender text now hadm hnone
    simp [addquiz_cmd, hadm, hnone]
  refine ⟨hrej, ?_, by decide, ?_, by decide⟩
  · intro db adminIds sender text now qi hadm hsome
    simp [addquiz_cmd, hadm, hsome]
  · intro db adminIds sender now hadm
    exact hrej db adminIds sender _ now hadm (by decide)

/-- Witness for C7: the three-option payload is rejected with the usage
example on a concrete store. -/
theorem addquiz_validation_witness :
    addquiz_cmd (⟨[], [], [], []⟩ : DB) [1] 1
        ("/addquiz 10 Maths Chapter-2 \"2+2?\" | 1 ; 2 ; 3 | 4 | 0") 0
      = ((⟨[], [], [], []⟩ : DB), [Msg.reply (addquizUsageText)]) :=
  addquiz_validation.2.2.2.1 (⟨[], [], [], []⟩ : DB) [1] 1 0 (by decide)

/-- C8: an unconfigured payment gateway degrades buy and the buy
callback to the static manual-payment instructions; with a configured
gateway, a plan key outside the fixed table answers the invalid-plan
rejection and creates no order. -/
theorem payment_degradation :
    (∀ g : Gateway, gatewayConfigured g = false →
      buy_cmd g = BuyCmdResult.manualInstructions PRICE_TEXT ∧
      ∀ k, buy_cb_router g k = BuyCbOutcome.fallbackInstructions PRICE_TEXT) ∧
    (∀ (g : Gateway) (k : String), gatewayConfigured g = true →
      PLANS.find? (fun kp => kp.1 == k) = none →
      buy_cb_router g k = BuyCbOutcome.invalidPlan ∧
      ordersCreated (buy_cb_router g k) = none) ∧
    (∀ (g : Gateway) (k : String), gatewayConfigured g = true →
      k ≠ ("1m") → k ≠ ("3m") → k ≠ ("12m") →
      buy_cb_router g k = BuyCbOutcome.invalidPlan ∧
      ordersCreated (buy_cb_router g k) = none) := by
  have hroute : ∀ (g : Gateway) (k : String), gatewayConfigured g = true →
      PLANS.find? (fun kp => kp.1 == k) = none →
      buy_cb_router g k = BuyCbOutcome.invalidPlan ∧
      ordersCreated (buy_cb_router g k) = none := by
    intro g k hg hf
    constructor <;> simp [buy_cb_router, hg, hf, ordersCreated]
  refine ⟨?_, hroute, ?_⟩
  · intro g hg
    constructor
    · simp [buy_cmd, hg]
    · intro k; simp [buy_cb_router, hg]
  · intro g k hg h1 h2 h3
    refine hroute g k hg ?_
    refine List.find?_eq_none.mpr ?_
    intro x hx
    simp only [PLANS, List.mem_cons, List.not_mem_nil, or_false] at hx
    rcases hx with h | h | h <;> subst h <;>
      simp [beq_iff_eq] <;> intro he <;> first
        | exact h1 he.symm
        | exact h2 he.symm
        | exact h3 he.symm

/-- Witness for C8: unconfigured gateway falls back to instructions;
configured gateway rejects the unknown key 9m without an order. -/
theorem payment_degradation_witness :
    buy_cmd (⟨false, none, none⟩ : Gateway) = BuyCmdResult.manualInstructions PRICE_TEXT ∧
    buy_cb_router (⟨true, some ("kid"), some ("sec")⟩ : Gateway) ("9m") = BuyCbOutcome.invalidPlan := by
  refine ⟨(payment_degradation.1 (⟨false, none, none⟩ : Gateway) (by decide)).1, ?_⟩
  exact (payment_degradation.2.2 (⟨true, some ("kid"), some ("sec")⟩ : Gateway) ("9m")
    (by decide) (by decide) (by decide) (by decide)).1

